import Mathlib

/-!
Verification of the filter/aggregation engine of the road-accident analytics
dashboard (`src/app.py`).

The pandas `DataFrame` is modelled as a `List Row`; a pandas null (NaN / NaT /
missing value) in a column is modelled as `none` in the corresponding
`Option`-typed field.  Pandas comparison and membership semantics on nulls
(null compares `False` under `>=`, `<=` and `isin`) are translated into the
`Option`-consuming boolean predicates below.  Numeric columns are modelled
over `ℚ` (the claims under study never depend on float rounding of column
values) and counts over `ℕ`.
-/

namespace RoadAccidents

/-- A successfully parsed `Start_Time` timestamp (the result of
`pd.to_datetime`), kept at the resolution the dashboard uses: calendar date
plus hour of day. -/
structure DateTime where
  year : Nat
  month : Nat
  day : Nat
  hour : Nat
deriving DecidableEq

/-- A calendar date, the value of the derived `Date` column
(`Start_Time.dt.date`). -/
structure CalDate where
  year : Nat
  month : Nat
  day : Nat
deriving DecidableEq

/-- Zeller's congruence: day-of-week index of a Gregorian calendar date,
with `0 = Saturday`.  This models the calendar computation behind
`Start_Time.dt.day_name()`. -/
def zeller (d : CalDate) : Nat :=
  let m := if d.month ≤ 2 then d.month + 12 else d.month
  let y := if d.month ≤ 2 then d.year - 1 else d.year
  (d.day + 13 * (m + 1) / 5 + y % 100 + y % 100 / 4 + y / 100 / 4 + 5 * (y / 100)) % 7

/-- English weekday name of a calendar date, as produced by
`Start_Time.dt.day_name()`. -/
def dayNameOf (d : CalDate) : String :=
  ["Saturday", "Sunday", "Monday", "Tuesday", "Wednesday", "Thursday", "Friday"].getD
    (zeller d) ""

/-- One raw CSV record as read by `pd.read_csv`, with `Start_Time` already
taken through `pd.to_datetime(..., errors="coerce")`: `none` models `NaT`,
i.e. a timestamp that failed to parse.  (The string-to-datetime parser itself
lives inside pandas, outside this repository.) -/
structure RawRow where
  Start_Time : Option DateTime
  State : Option String
  City : Option String
  Weather_Condition : Option String
  Severity : Option ℚ
  Start_Lat : Option ℚ
  Start_Lng : Option ℚ
  Visibility : Option ℚ
  Temperature : Option ℚ
  Wind_Speed : Option ℚ
deriving DecidableEq

/-- One loaded record: the raw record plus the derived calendar columns
`Date`, `Hour`, `Month`, `Day` attached by `load_data`. -/
structure Row where
  Start_Time : Option DateTime
  Date : Option CalDate
  Hour : Option Nat
  Month : Option Nat
  Day : Option String
  State : Option String
  City : Option String
  Weather_Condition : Option String
  Severity : Option ℚ
  Start_Lat : Option ℚ
  Start_Lng : Option ℚ
  Visibility : Option ℚ
  Temperature : Option ℚ
  Wind_Speed : Option ℚ
deriving DecidableEq

/-- The per-row work of `load_data` (src/app.py lines 22-27): derive
`Date`, `Hour`, `Month`, `Day` from the parsed timestamp.  A `NaT`
timestamp propagates to null derived fields, exactly as the pandas `.dt`
accessors do. -/
def loadRow (x : RawRow) : Row where
  Start_Time := x.Start_Time
  Date := x.Start_Time.map (fun t => ⟨t.year, t.month, t.day⟩)
  Hour := x.Start_Time.map (fun t => t.hour)
  Month := x.Start_Time.map (fun t => t.month)
  Day := x.Start_Time.map (fun t => dayNameOf ⟨t.year, t.month, t.day⟩)
  State := x.State
  City := x.City
  Weather_Condition := x.Weather_Condition
  Severity := x.Severity
  Start_Lat := x.Start_Lat
  Start_Lng := x.Start_Lng
  Visibility := x.Visibility
  Temperature := x.Temperature
  Wind_Speed := x.Wind_Speed

/-- `load_data` (src/app.py lines 19-28): every CSV record produces exactly
one table row; no row is dropped on timestamp parse failure. -/
def load_data (raws : List RawRow) : List Row :=
  raws.map loadRow

/-- Boolean `≤` on calendar dates (lexicographic year, month, day), the
order pandas uses when comparing `datetime.date` values. -/
def calLe (a b : CalDate) : Bool :=
  if a.year ≠ b.year then decide (a.year < b.year)
  else if a.month ≠ b.month then decide (a.month < b.month)
  else decide (a.day ≤ b.day)

/-- `column >= lo` on a nullable date column: pandas object-dtype comparison
yields `False` on a null entry. -/
def optGeDate (v : Option CalDate) (lo : CalDate) : Bool :=
  match v with
  | none => false
  | some d => calLe lo d

/-- `column <= hi` on a nullable date column; null yields `False`. -/
def optLeDate (v : Option CalDate) (hi : CalDate) : Bool :=
  match v with
  | none => false
  | some d => calLe d hi

/-- `column.isin(sel)` on a nullable column: a null entry is never a
member. -/
def isinOpt {α : Type} [DecidableEq α] (v : Option α) (sel : List α) : Bool :=
  match v with
  | none => false
  | some x => decide (x ∈ sel)

/-- `column.between(lo, hi)` (inclusive) on a nullable integer column; null
yields `False` (NaN fails both float comparisons). -/
def betweenOpt (v : Option Nat) (lo hi : Nat) : Bool :=
  match v with
  | none => false
  | some x => decide (lo ≤ x) && decide (x ≤ hi)

/-- The unconditional date-range filter of `get_filtered_data`
(src/app.py lines 95-98). -/
def dateStep (start_date end_date : CalDate) (t : List Row) : List Row :=
  t.filter (fun r => optGeDate r.Date start_date && optLeDate r.Date end_date)

/-- One conditional categorical-membership filter of `get_filtered_data`
(src/app.py lines 100-107): `if sel:` is Python truthiness, so an empty
selection list skips the filter entirely. -/
def catFilter {α : Type} [DecidableEq α] (sel : List α) (f : Row → Option α)
    (t : List Row) : List Row :=
  if sel.isEmpty then t else t.filter (fun r => isinOpt (f r) sel)

/-- The unconditional hour/month range filter of `get_filtered_data`
(src/app.py lines 109-112). -/
def hourMonthStep (hour_range month_range : Nat × Nat) (t : List Row) : List Row :=
  t.filter (fun r =>
    betweenOpt r.Hour hour_range.1 hour_range.2 &&
    betweenOpt r.Month month_range.1 month_range.2)

/-- `get_filtered_data` (src/app.py lines 90-114): date range, then the four
conditional categorical filters (state, severity, weather, day), then the
hour and month ranges. -/
def get_filtered_data (df : List Row) (state : List String) (severity : List ℚ)
    (weather day : List String) (hour_range month_range : Nat × Nat)
    (start_date end_date : CalDate) : List Row :=
  hourMonthStep hour_range month_range
    (catFilter day (fun r => r.Day)
      (catFilter weather (fun r => r.Weather_Condition)
        (catFilter severity (fun r => r.Severity)
          (catFilter state (fun r => r.State)
            (dateStep start_date end_date df)))))

/-- `get_filtered_data` with the state dimension removed from the pipeline
(used to state that an empty state selection is a no-op). -/
def get_filtered_data_no_state (df : List Row) (severity : List ℚ)
    (weather day : List String) (hour_range month_range : Nat × Nat)
    (start_date end_date : CalDate) : List Row :=
  hourMonthStep hour_range month_range
    (catFilter day (fun r => r.Day)
      (catFilter weather (fun r => r.Weather_Condition)
        (catFilter severity (fun r => r.Severity)
          (dateStep start_date end_date df))))

/-- `get_filtered_data` with the severity dimension removed. -/
def get_filtered_data_no_severity (df : List Row) (state : List String)
    (weather day : List String) (hour_range month_range : Nat × Nat)
    (start_date end_date : CalDate) : List Row :=
  hourMonthStep hour_range month_range
    (catFilter day (fun r => r.Day)
      (catFilter weather (fun r => r.Weather_Condition)
        (catFilter state (fun r => r.State)
          (dateStep start_date end_date df))))

/-- `get_filtered_data` with the weather dimension removed. -/
def get_filtered_data_no_weather (df : List Row) (state : List String)
    (severity : List ℚ) (day : List String) (hour_range month_range : Nat × Nat)
    (start_date end_date : CalDate) : List Row :=
  hourMonthStep hour_range month_range
    (catFilter day (fun r => r.Day)
      (catFilter severity (fun r => r.Severity)
        (catFilter state (fun r => r.State)
          (dateStep start_date end_date df))))

/-- `get_filtered_data` with the weekday dimension removed. -/
def get_filtered_data_no_day (df : List Row) (state : List String)
    (severity : List ℚ) (weather : List String) (hour_range month_range : Nat × Nat)
    (start_date end_date : CalDate) : List Row :=
  hourMonthStep hour_range month_range
    (catFilter weather (fun r => r.Weather_Condition)
      (catFilter severity (fun r => r.Severity)
        (catFilter state (fun r => r.State)
          (dateStep start_date end_date df))))

/-- Mean of the nullable `Severity` column, as `Series.mean` computes it:
NaN entries are skipped; an all-null (or empty) column has mean NaN
(modelled `none`). -/
def meanSeverity (rows : List Row) : Option ℚ :=
  let vals := rows.filterMap (fun r => r.Severity)
  if vals.isEmpty then none else some (vals.sum / (vals.length : ℚ))

/-- `round(x, 2)`: rounding of the float mean to two decimal places,
modelled as rational rounding (float round-half-to-even tie behaviour is not
reproduced; no claim depends on an exact tie). -/
def round2 (q : ℚ) : ℚ :=
  ((round (q * 100) : ℤ) : ℚ) / 100

/-- The "Average Severity" metric (src/app.py line 123):
`round(filtered_df["Severity"].mean(), 2) if len(filtered_df) > 0 else 0`. -/
def averageSeverityMetric (rows : List Row) : Option ℚ :=
  if 0 < rows.length then (meanSeverity rows).map round2 else some 0

/-- Lexicographic code-point comparison of character lists: the order Python
and pandas use on strings. -/
def charListLt : List Char → List Char → Bool
  | [], [] => false
  | [], _ :: _ => true
  | _ :: _, [] => false
  | c :: cs, d :: ds =>
    if c.toNat < d.toNat then true
    else if d.toNat < c.toNat then false
    else charListLt cs ds

/-- Strict lexicographic order on strings. -/
def strLtB (a b : String) : Bool :=
  charListLt a.data b.data

/-- Insert into a list sorted by the strict order `lt`, keeping it sorted and
duplicate-free. -/
def sortedInsert {α : Type} [DecidableEq α] (lt : α → α → Bool) (x : α) :
    List α → List α
  | [] => [x]
  | y :: ys =>
    if x = y then y :: ys
    else if lt x y then x :: y :: ys
    else y :: sortedInsert lt x ys

/-- Sorted list of the distinct values of a list: models the category set of
a pandas categorical column (`astype("category")` sorts the distinct non-null
values), and also the sorted group keys of a `groupby`. -/
def sortedUnique {α : Type} [DecidableEq α] (lt : α → α → Bool) (l : List α) :
    List α :=
  l.foldr (sortedInsert lt) []

/-- Number of rows whose (nullable) column value equals `v`; null rows never
match.  This is the size of group `v` in a `groupby`. -/
def countVal {α : Type} [DecidableEq α] (f : Row → Option α) (rows : List Row)
    (v : α) : Nat :=
  (rows.filter (fun r => decide (f r = some v))).length

/-- `groupby(col).size()` over a categorical column with category list
`cats`: one entry per category, in category order, counting matching rows
(0 for an unobserved category — pandas `observed=False` grouping). -/
def groupSize {α : Type} [DecidableEq α] (cats : List α) (f : Row → Option α)
    (rows : List Row) : List (α × Nat) :=
  cats.map (fun c => (c, countVal f rows c))

/-- The category set of the `Day` column: sorted distinct non-null weekday
names of the base table (`df["Day"].astype("category")`, src/app.py line 36).
Filtering preserves the dtype, so the filtered table grouped in `fig3` still
carries the base table's categories. -/
def dayCategories (base : List Row) : List String :=
  sortedUnique strLtB (base.filterMap (fun r => r.Day))

/-- The category set of the `State` column (src/app.py line 33). -/
def stateCategories (base : List Row) : List String :=
  sortedUnique strLtB (base.filterMap (fun r => r.State))

/-- The canonical weekday order used by the `reindex` in `fig3`
(src/app.py lines 156-158). -/
def weekdayOrder : List String :=
  ["Monday", "Tuesday", "Wednesday", "Thursday", "Friday", "Saturday", "Sunday"]

/-- The data behind `fig3` (src/app.py lines 154-163):
`groupby("Day").size().reindex([Monday..Sunday])`.  `reindex` emits one entry
per requested label in the requested order; a label that is not a group key
(not a category of the base table) gets a null count, a zero-row category
gets 0. -/
def fig3Data (base rows : List Row) : List (String × Option Nat) :=
  weekdayOrder.map
    (fun d => (d, (groupSize (dayCategories base) (fun r => r.Day) rows).lookup d))

/-- Count per observed hour value (`fig2`, src/app.py line 146):
`groupby("Hour").size()` over the non-categorical float `Hour` column groups
the distinct non-null hours, sorted ascending.  Rows with a null hour are
dropped by the groupby. -/
def hourCounts (rows : List Row) : List (Nat × Nat) :=
  (sortedUnique (fun a b => decide (a < b)) (rows.filterMap (fun r => r.Hour))).map
    (fun h => (h, countVal (fun r => r.Hour) rows h))

/-- The comparison key of `sort_values("Accident Count")`: ascending count
order on `(state, count)` pairs. -/
def leCount (a b : String × Nat) : Prop := a.2 ≤ b.2

instance : DecidableRel leCount :=
  fun a b => inferInstanceAs (Decidable (a.2 ≤ b.2))

instance : IsTotal (String × Nat) leCount :=
  ⟨fun a b => Nat.le_total a.2 b.2⟩

instance : IsTrans (String × Nat) leCount :=
  ⟨fun _ _ _ h1 h2 => Nat.le_trans h1 h2⟩

/-- `state_counts` (src/app.py lines 174-181):
`groupby("State").size().sort_values(ascending=False).head(15)`.
`sort_values(ascending=False)` is pandas `nargsort`: an ascending argsort of
the counts followed by reversing the whole permutation; this is modelled with
a stable ascending insertion sort then `reverse`, which is exact for the
library's small-array (fewer than 16 groups) insertion sort and
implementation-defined only in tie order beyond that. -/
def state_counts (base rows : List Row) : List (String × Nat) :=
  ((groupSize (stateCategories base) (fun r => r.State) rows).insertionSort
      leCount).reverse.take 15

/-- Rows usable on the map: non-null coordinates
(`dropna(subset=["Start_Lat", "Start_Lng"])`, src/app.py line 205). -/
def coordOk (r : Row) : Bool :=
  r.Start_Lat.isSome && r.Start_Lng.isSome

/-- Model of `DataFrame.sample(n, random_state)`: a deterministic seeded
pseudo-random selection of `n` distinct positions (the library's RNG stream
is not reproduced; what the claims use is that the selection is a pure
function of `(input, n, seed)` returning exactly `min n len` rows). -/
def sampleRows : Nat → Nat → List Row → List Row
  | _, 0, _ => []
  | seed, n + 1, rows =>
    if h : rows.length = 0 then []
    else
      let i : Fin rows.length :=
        ⟨seed % rows.length, Nat.mod_lt _ (Nat.pos_of_ne_zero h)⟩
      rows.get i :: sampleRows (seed * 1103515245 + 12345) n (rows.eraseIdx i)

/-- `map_df` (src/app.py lines 205-208): coordinate-non-null rows, sampled
down to `map_points` rows with fixed seed 42 when they exceed the cap. -/
def map_df (filtered : List Row) (map_points : Nat) : List Row :=
  if map_points < (filtered.filter coordOk).length
  then sampleRows 42 map_points (filtered.filter coordOk)
  else filtered.filter coordOk

/-- A row contributing to the correlation matrix: all four of severity,
visibility, temperature, wind speed non-null. -/
def fullyPopulated (r : Row) : Bool :=
  r.Severity.isSome && r.Visibility.isSome && r.Temperature.isSome &&
    r.Wind_Speed.isSome

/-- The four correlation column values of a fully populated row. -/
def corrProj (r : Row) : ℚ × ℚ × ℚ × ℚ :=
  (r.Severity.getD 0, r.Visibility.getD 0, r.Temperature.getD 0, r.Wind_Speed.getD 0)

/-- `corr_df` (src/app.py lines 273-280):
`filtered_df[["Severity", "Visibility(mi)", "Temperature(F)", "Wind_Speed(mph)"]].dropna()` —
the projections of exactly the rows whose four correlation columns are all
non-null. -/
def corr_df (rows : List Row) : List (ℚ × ℚ × ℚ × ℚ) :=
  rows.filterMap (fun r =>
    match r.Severity, r.Visibility, r.Temperature, r.Wind_Speed with
    | some a, some b, some c, some d => some (a, b, c, d)
    | _, _, _, _ => none)

/-- Mean of a rational column. -/
def qMean (l : List ℚ) : ℚ :=
  l.sum / (l.length : ℚ)

/-- Covariance of two equal-length columns. -/
def covar (xs ys : List ℚ) : ℚ :=
  qMean (List.zipWith (fun a b => (a - qMean xs) * (b - qMean ys)) xs ys)

/-- The 4×4 second-moment matrix over the fully-populated rows.  The pandas
correlation matrix is this matrix normalized entrywise by standard
deviations (square roots, outside `ℚ`); the claims under study constrain
which rows enter the computation and the empty-input behaviour, both of
which this model carries faithfully. -/
def covMatrix (data : List (ℚ × ℚ × ℚ × ℚ)) : List (List ℚ) :=
  let cols := [data.map (fun p => p.1), data.map (fun p => p.2.1),
    data.map (fun p => p.2.2.1), data.map (fun p => p.2.2.2)]
  cols.map (fun x => cols.map (fun y => covar x y))

/-- A fully populated concrete record (2021-03-15 was a Monday), used as raw
material for concrete tables. -/
def baseRow : Row where
  Start_Time := some ⟨2021, 3, 15, 8⟩
  Date := some ⟨2021, 3, 15⟩
  Hour := some 8
  Month := some 3
  Day := some "Monday"
  State := some "CA"
  City := some "LA"
  Weather_Condition := some "Clear"
  Severity := some 2
  Start_Lat := some 34
  Start_Lng := some 118
  Visibility := some 10
  Temperature := some 60
  Wind_Speed := some 5

/-- A one-row table whose only weekday is Monday. -/
def exMonBase : List Row := [baseRow]

/-- A record in state "AA". -/
def rowAA : Row := { baseRow with State := some "AA" }

/-- A record in state "BB". -/
def rowBB : Row := { baseRow with State := some "BB" }

/-- A two-row table with states "AA" and "BB", one accident each. -/
def exTie : List Row := [rowAA, rowBB]

/-- A record in the given state. -/
def mkStateRow (s : String) : Row := { baseRow with State := some s }

/-- Sixteen rows in sixteen distinct states, one accident each. -/
def exSixteen : List Row :=
  (["S01", "S02", "S03", "S04", "S05", "S06", "S07", "S08", "S09", "S10",
    "S11", "S12", "S13", "S14", "S15", "S16"]).map mkStateRow

/-- A record with the given severity. -/
def sevRow (q : ℚ) : Row := { baseRow with Severity := some q }

/-- Three rows with severities 1, 1, 2 (mean 4/3). -/
def exSev : List Row := [sevRow 1, sevRow 1, sevRow 2]

/-- A record with a null visibility (not fully populated for the
correlation). -/
def rowNoVis : Row := { baseRow with Visibility := none }

/-- A one-row table with no fully populated correlation row. -/
def exNoVis : List Row := [rowNoVis]

/-- A raw CSV record with a parseable timestamp. -/
def rawGood : RawRow where
  Start_Time := some ⟨2021, 3, 15, 8⟩
  State := some "CA"
  City := some "LA"
  Weather_Condition := some "Clear"
  Severity := some 2
  Start_Lat := some 34
  Start_Lng := some 118
  Visibility := some 10
  Temperature := some 60
  Wind_Speed := some 5

/-- A raw CSV record whose timestamp failed to parse. -/
def rawBad : RawRow := { rawGood with Start_Time := none }

/-- A two-record raw input, one parseable and one unparsable timestamp. -/
def exRaws : List RawRow := [rawGood, rawBad]

/-- Result of the correlation tab. -/
inductive CorrOutput where
  | insufficientData
  | matrix (m : List (List ℚ))
deriving DecidableEq

/-- The correlation tab (src/app.py lines 282-285): a warning when zero
fully-populated rows remain, the matrix over `corr_df` otherwise. -/
def corrResult (rows : List Row) : CorrOutput :=
  if (corr_df rows).length = 0 then CorrOutput.insufficientData
  else CorrOutput.matrix (covMatrix (corr_df rows))

/-! ### General lemmas about the filter pipeline -/

theorem catFilter_nil {α : Type} [DecidableEq α] (f : Row → Option α) (t : List Row) :
    catFilter ([] : List α) f t = t := by
  simp [catFilter]

theorem catFilter_sublist {α : Type} [DecidableEq α] (sel : List α)
    (f : Row → Option α) (t : List Row) : (catFilter sel f t).Sublist t := by
  unfold catFilter
  split
  · exact List.Sublist.refl t
  · exact List.filter_sublist t

theorem dateStep_sublist (sd ed : CalDate) (t : List Row) :
    (dateStep sd ed t).Sublist t := by
  unfold dateStep
  exact List.filter_sublist t

theorem hourMonthStep_sublist (hr mr : Nat × Nat) (t : List Row) :
    (hourMonthStep hr mr t).Sublist t := by
  unfold hourMonthStep
  exact List.filter_sublist t

theorem mem_dateStep {r : Row} {sd ed : CalDate} {t : List Row}
    (h : r ∈ dateStep sd ed t) :
    r ∈ t ∧ optGeDate r.Date sd = true ∧ optLeDate r.Date ed = true := by
  simp only [dateStep, List.mem_filter, Bool.and_eq_true] at h
  exact ⟨h.1, h.2.1, h.2.2⟩

theorem mem_catFilter {α : Type} [DecidableEq α] {r : Row} {sel : List α}
    {f : Row → Option α} {t : List Row} (h : r ∈ catFilter sel f t) :
    r ∈ t ∧ (sel.isEmpty = false → isinOpt (f r) sel = true) := by
  unfold catFilter at h
  split at h
  next he => exact ⟨h, fun hc => by rw [he] at hc; cases hc⟩
  next he =>
    rw [List.mem_filter] at h
    exact ⟨h.1, fun _ => h.2⟩

theorem mem_hourMonthStep {r : Row} {hr mr : Nat × Nat} {t : List Row}
    (h : r ∈ hourMonthStep hr mr t) :
    r ∈ t ∧ betweenOpt r.Hour hr.1 hr.2 = true ∧
      betweenOpt r.Month mr.1 mr.2 = true := by
  simp only [hourMonthStep, List.mem_filter, Bool.and_eq_true] at h
  exact ⟨h.1, h.2.1, h.2.2⟩

theorem mem_get_filtered_data {r : Row} {df : List Row} {s : List String}
    {sev : List ℚ} {w d : List String} {hr mr : Nat × Nat} {sd ed : CalDate}
    (h : r ∈ get_filtered_data df s sev w d hr mr sd ed) :
    r ∈ df ∧
      optGeDate r.Date sd = true ∧ optLeDate r.Date ed = true ∧
      (s.isEmpty = false → isinOpt r.State s = true) ∧
      (sev.isEmpty = false → isinOpt r.Severity sev = true) ∧
      (w.isEmpty = false → isinOpt r.Weather_Condition w = true) ∧
      (d.isEmpty = false → isinOpt r.Day d = true) ∧
      betweenOpt r.Hour hr.1 hr.2 = true ∧ betweenOpt r.Month mr.1 mr.2 = true := by
  unfold get_filtered_data at h
  obtain ⟨h5, hhour, hmonth⟩ := mem_hourMonthStep h
  obtain ⟨h4, hday⟩ := mem_catFilter h5
  obtain ⟨h3, hw⟩ := mem_catFilter h4
  obtain ⟨h2, hsev⟩ := mem_catFilter h3
  obtain ⟨h1, hs⟩ := mem_catFilter h2
  obtain ⟨h0, hge, hle⟩ := mem_dateStep h1
  exact ⟨h0, hge, hle, hs, hsev, hw, hday, hhour, hmonth⟩

theorem catFilter_eq_self {α : Type} [DecidableEq α] {sel : List α}
    {f : Row → Option α} {t : List Row}
    (h : ∀ r ∈ t, sel.isEmpty = false → isinOpt (f r) sel = true) :
    catFilter sel f t = t := by
  unfold catFilter
  split
  · rfl
  next hne =>
    exact List.filter_eq_self.mpr (fun r hr => h r hr (Bool.eq_false_iff.mpr hne))

theorem get_filtered_data_eq_self {t : List Row} {s : List String} {sev : List ℚ}
    {w d : List String} {hr mr : Nat × Nat} {sd ed : CalDate}
    (h : ∀ r ∈ t,
      optGeDate r.Date sd = true ∧ optLeDate r.Date ed = true ∧
      (s.isEmpty = false → isinOpt r.State s = true) ∧
      (sev.isEmpty = false → isinOpt r.Severity sev = true) ∧
      (w.isEmpty = false → isinOpt r.Weather_Condition w = true) ∧
      (d.isEmpty = false → isinOpt r.Day d = true) ∧
      betweenOpt r.Hour hr.1 hr.2 = true ∧ betweenOpt r.Month mr.1 mr.2 = true) :
    get_filtered_data t s sev w d hr mr sd ed = t := by
  have e1 : dateStep sd ed t = t := by
    unfold dateStep
    exact List.filter_eq_self.mpr (fun r hrr => by
      rw [Bool.and_eq_true]
      exact ⟨(h r hrr).1, (h r hrr).2.1⟩)
  have e2 : catFilter s (fun r => r.State) t = t :=
    catFilter_eq_self (fun r hrr => (h r hrr).2.2.1)
  have e3 : catFilter sev (fun r => r.Severity) t = t :=
    catFilter_eq_self (fun r hrr => (h r hrr).2.2.2.1)
  have e4 : catFilter w (fun r => r.Weather_Condition) t = t :=
    catFilter_eq_self (fun r hrr => (h r hrr).2.2.2.2.1)
  have e5 : catFilter d (fun r => r.Day) t = t :=
    catFilter_eq_self (fun r hrr => (h r hrr).2.2.2.2.2.1)
  have e6 : hourMonthStep hr mr t = t := by
    unfold hourMonthStep
    exact List.filter_eq_self.mpr (fun r hrr => by
      rw [Bool.and_eq_true]
      exact ⟨(h r hrr).2.2.2.2.2.2.1, (h r hrr).2.2.2.2.2.2.2⟩)
  unfold get_filtered_data
  rw [e1, e2, e3, e4, e5, e6]

theorem optGeDate_isSome {v : Option CalDate} {lo : CalDate}
    (h : optGeDate v lo = true) : v.isSome = true := by
  cases v with
  | none => simp [optGeDate] at h
  | some d => rfl

theorem betweenOpt_isSome {v : Option Nat} {lo hi : Nat}
    (h : betweenOpt v lo hi = true) : v.isSome = true := by
  cases v with
  | none => simp [betweenOpt] at h
  | some x => rfl

/-! ### Claims -/

/-- C1: for every base table and every filter criteria, if a categorical
dimension's selection set (state, severity, weather, or weekday) is empty,
the filter result is identical to the result with that dimension removed:
an empty selection imposes no restriction on that dimension rather than
matching nothing. -/
theorem C1_empty_selection_no_restriction (df : List Row) (state : List String)
    (severity : List ℚ) (weather day : List String)
    (hour_range month_range : Nat × Nat) (start_date end_date : CalDate) :
    get_filtered_data df [] severity weather day hour_range month_range
        start_date end_date =
      get_filtered_data_no_state df severity weather day hour_range month_range
        start_date end_date ∧
    get_filtered_data df state [] weather day hour_range month_range
        start_date end_date =
      get_filtered_data_no_severity df state weather day hour_range month_range
        start_date end_date ∧
    get_filtered_data df state severity [] day hour_range month_range
        start_date end_date =
      get_filtered_data_no_weather df state severity day hour_range month_range
        start_date end_date ∧
    get_filtered_data df state severity weather [] hour_range month_range
        start_date end_date =
      get_filtered_data_no_day df state severity weather hour_range month_range
        start_date end_date := by
  refine ⟨?_, ?_, ?_, ?_⟩ <;>
    simp [get_filtered_data, get_filtered_data_no_state,
      get_filtered_data_no_severity, get_filtered_data_no_weather,
      get_filtered_data_no_day, catFilter_nil]

/-- C2: for every base table and every filter criteria, the filtered table
is a sublist of the base table: every filtered row is a base row (by row
identity, multiplicities included) and no row is invented. -/
theorem C2_filtered_is_sublist_of_base (df : List Row) (state : List String)
    (severity : List ℚ) (weather day : List String)
    (hour_range month_range : Nat × Nat) (start_date end_date : CalDate) :
    (get_filtered_data df state severity weather day hour_range month_range
      start_date end_date).Sublist df := by
  unfold get_filtered_data
  exact (hourMonthStep_sublist _ _ _).trans
    ((catFilter_sublist _ _ _).trans
      ((catFilter_sublist _ _ _).trans
        ((catFilter_sublist _ _ _).trans
          ((catFilter_sublist _ _ _).trans (dateStep_sublist _ _ _)))))

/-- C3: the filter step is deterministic (same table and criteria give the
same result) and idempotent (filtering an already-filtered table with the
same criteria changes nothing). -/
theorem C3_deterministic_and_idempotent (df : List Row) (state : List String)
    (severity : List ℚ) (weather day : List String)
    (hour_range month_range : Nat × Nat) (start_date end_date : CalDate) :
    get_filtered_data df state severity weather day hour_range month_range
        start_date end_date =
      get_filtered_data df state severity weather day hour_range month_range
        start_date end_date ∧
    get_filtered_data
        (get_filtered_data df state severity weather day hour_range month_range
          start_date end_date)
        state severity weather day hour_range month_range start_date end_date =
      get_filtered_data df state severity weather day hour_range month_range
        start_date end_date := by
  refine ⟨rfl, get_filtered_data_eq_self ?_⟩
  intro r hrr
  exact (mem_get_filtered_data hrr).2

/-- C10: every row of the filtered table has non-null `Date`, `Hour` and
`Month` derived fields — the date filter and the hour/month range filters
are applied unconditionally, so rows with unparsable timestamps are excluded
from the filtered view entirely. -/
theorem C10_filtered_rows_have_derived_fields (df : List Row)
    (state : List String) (severity : List ℚ) (weather day : List String)
    (hour_range month_range : Nat × Nat) (start_date end_date : CalDate)
    (r : Row)
    (h : r ∈ get_filtered_data df state severity weather day hour_range
      month_range start_date end_date) :
    r.Date.isSome = true ∧ r.Hour.isSome = true ∧ r.Month.isSome = true := by
  obtain ⟨-, hge, -, -, -, -, -, hhour, hmonth⟩ := mem_get_filtered_data h
  exact ⟨optGeDate_isSome hge, betweenOpt_isSome hhour, betweenOpt_isSome hmonth⟩

/-- C10 witness: a concrete row passing a concrete filter, with its derived
fields non-null. -/
theorem C10_witness :
    baseRow ∈ get_filtered_data exMonBase [] [] [] [] (0, 23) (1, 12)
      ⟨2020, 1, 1⟩ ⟨2022, 1, 1⟩ ∧
    (baseRow.Date.isSome = true ∧ baseRow.Hour.isSome = true ∧
      baseRow.Month.isSome = true) :=
  ⟨by decide,
   C10_filtered_rows_have_derived_fields exMonBase [] [] [] [] (0, 23) (1, 12)
     ⟨2020, 1, 1⟩ ⟨2022, 1, 1⟩ baseRow (by decide)⟩

/-- `lookup` over a key/value list built by mapping over a key list finds
the (first) image of the key, and `none` for keys outside the list. -/
theorem lookup_map_pairs (g : String → Nat) (cats : List String) (k : String) :
    ((cats.map (fun c => (c, g c))).lookup k) =
      if k ∈ cats then some (g k) else none := by
  induction cats with
  | nil => simp
  | cons c cs ih =>
    by_cases hd : k = c
    · subst hd
      simp [List.lookup_cons]
    · have hbeq : (k == c) = false := beq_eq_false_iff_ne.mpr hd
      simp [List.lookup_cons, hbeq, hd, ih]

/-- C4 counterexample: over a base table whose only weekday is "Monday", the
weekday output row for "Tuesday" carries a null count, not 0, although
"Tuesday" has no rows in the filtered set — refuting "a day with no rows in
the filtered set appears with count 0 (not missing, not null)". -/
theorem C4_counterexample :
    countVal (fun r => r.Day) exMonBase "Tuesday" = 0 ∧
    ("Tuesday", (none : Option Nat)) ∈ fig3Data exMonBase exMonBase ∧
    ("Tuesday", some 0) ∉ fig3Data exMonBase exMonBase := by
  decide

/-- C4 (amended): the weekday output always lists exactly the seven weekdays
in Monday→Sunday order; a weekday that occurs in the base table (is a `Day`
category) appears with the exact filtered count — 0 when it has no filtered
rows — while a weekday entirely absent from the base table appears with a
null count. -/
theorem C4_weekday_output (base rows : List Row) :
    (fig3Data base rows).map Prod.fst = weekdayOrder ∧
    (∀ d ∈ weekdayOrder, d ∈ dayCategories base →
      (d, some (countVal (fun r => r.Day) rows d)) ∈ fig3Data base rows) ∧
    (∀ d ∈ weekdayOrder, d ∉ dayCategories base →
      (d, (none : Option Nat)) ∈ fig3Data base rows) := by
  refine ⟨?_, ?_, ?_⟩
  · rfl
  · intro d hmem hcat
    have hv : (groupSize (dayCategories base) (fun r => r.Day) rows).lookup d =
        some (countVal (fun r => r.Day) rows d) := by
      unfold groupSize
      rw [lookup_map_pairs]
      exact if_pos hcat
    have h2 : (d, (groupSize (dayCategories base) (fun r => r.Day) rows).lookup d) ∈
        fig3Data base rows := by
      unfold fig3Data
      exact List.mem_map_of_mem _ hmem
    rwa [hv] at h2
  · intro d hmem hcat
    have hv : (groupSize (dayCategories base) (fun r => r.Day) rows).lookup d =
        none := by
      unfold groupSize
      rw [lookup_map_pairs]
      exact if_neg hcat
    have h2 : (d, (groupSize (dayCategories base) (fun r => r.Day) rows).lookup d) ∈
        fig3Data base rows := by
      unfold fig3Data
      exact List.mem_map_of_mem _ hmem
    rwa [hv] at h2

/-- C4 witness: on the Monday-only base table, "Monday" (a base category)
appears with its exact count and "Sunday" (absent from the base) appears
with a null count. -/
theorem C4_weekday_output_witness :
    ("Monday", some (countVal (fun r => r.Day) exMonBase "Monday")) ∈
      fig3Data exMonBase exMonBase ∧
    ("Sunday", (none : Option Nat)) ∈ fig3Data exMonBase exMonBase :=
  ⟨(C4_weekday_output exMonBase exMonBase).2.1 "Monday" (by decide) (by decide),
   (C4_weekday_output exMonBase exMonBase).2.2 "Sunday" (by decide) (by decide)⟩

/-- C7 counterexample: on three rows with severities 1, 1, 2 the metric is
`round(4/3, 2) = 1.33 ≠ 4/3`: the displayed metric is the rounded mean, not
the mean itself — refuting "the mean of the severity column otherwise". -/
theorem C7_counterexample :
    0 < exSev.length ∧ averageSeverityMetric exSev ≠ meanSeverity exSev := by
  constructor
  · decide
  · have hm : meanSeverity exSev = some ((4 : ℚ) / 3) := by
      simp [meanSeverity, exSev, sevRow, baseRow]
      norm_num
    have hfl : round ((4 : ℚ) / 3 * 100) = (133 : ℤ) := by
      rw [round_eq, show ((4 : ℚ) / 3 * 100 + 1 / 2) = 803 / 6 by norm_num,
        Int.floor_eq_iff]
      norm_num
    have hmet : averageSeverityMetric exSev = some ((133 : ℚ) / 100) := by
      unfold averageSeverityMetric
      rw [if_pos (by decide : 0 < exSev.length), hm]
      simp [round2, hfl]
    rw [hmet, hm]
    intro hcontra
    rw [Option.some_inj] at hcontra
    norm_num at hcontra

/-- C7 (amended): the mean-severity metric is exactly 0 when the filtered
table has zero rows, and otherwise the mean of the severity column rounded
to two decimal places (null when every severity is null, matching the NaN
the code then displays). -/
theorem C7_mean_severity_metric (rows : List Row) :
    (rows.length = 0 → averageSeverityMetric rows = some 0) ∧
    (0 < rows.length →
      averageSeverityMetric rows = (meanSeverity rows).map round2) ∧
    (0 < rows.length → rows.filterMap (fun r => r.Severity) ≠ [] →
      averageSeverityMetric rows =
        some (round2 ((rows.filterMap (fun r => r.Severity)).sum /
          ((rows.filterMap (fun r => r.Severity)).length : ℚ)))) := by
  refine ⟨?_, ?_, ?_⟩
  · intro h
    simp [averageSeverityMetric, h]
  · intro h
    simp [averageSeverityMetric, h]
  · intro h hne
    simp [averageSeverityMetric, h, meanSeverity, hne]

/-- C7 witness: the zero-row case gives exactly 0, and a concrete non-empty
table gives the rounded mean. -/
theorem C7_mean_severity_metric_witness :
    averageSeverityMetric ([] : List Row) = some 0 ∧
    averageSeverityMetric exSev = (meanSeverity exSev).map round2 :=
  ⟨(C7_mean_severity_metric []).1 rfl,
   (C7_mean_severity_metric exSev).2.1 (by decide)⟩

/-- The sample model always returns `min n len` rows. -/
theorem length_sampleRows (n : Nat) :
    ∀ (seed : Nat) (rows : List Row),
      (sampleRows seed n rows).length = min n rows.length := by
  induction n with
  | zero =>
    intro seed rows
    simp [sampleRows]
  | succ k ih =>
    intro seed rows
    simp only [sampleRows]
    split
    next h =>
      simp [h]
    next h =>
      have hlt : seed % rows.length < rows.length :=
        Nat.mod_lt _ (Nat.pos_of_ne_zero h)
      simp only [List.length_cons, ih, List.length_eraseIdx, if_pos hlt]
      omega

/-- C5: map sampling — when the coordinate-non-null rows do not exceed the
cap the output is exactly that full set; when they exceed it the output has
exactly `cap` rows; and sampling is a pure function of its input and the
fixed seed, so two invocations on the same input agree. -/
theorem C5_map_sampling (filtered : List Row) (cap : Nat) :
    map_df filtered cap = map_df filtered cap ∧
    ((filtered.filter coordOk).length ≤ cap →
      map_df filtered cap = filtered.filter coordOk) ∧
    (cap < (filtered.filter coordOk).length →
      (map_df filtered cap).length = cap) := by
  refine ⟨rfl, ?_, ?_⟩
  · intro h
    unfold map_df
    rw [if_neg (Nat.not_lt.mpr h)]
  · intro h
    unfold map_df
    rw [if_pos h, length_sampleRows]
    omega

/-- C5 witness: on a concrete two-row table, a cap of 5 returns the full
coordinate-non-null set and a cap of 1 returns exactly one row. -/
theorem C5_map_sampling_witness :
    ((exTie.filter coordOk).length ≤ 5 ∧
      map_df exTie 5 = exTie.filter coordOk) ∧
    (1 < (exTie.filter coordOk).length ∧ (map_df exTie 1).length = 1) :=
  ⟨⟨by decide, (C5_map_sampling exTie 5).2.1 (by decide)⟩,
   ⟨by decide, (C5_map_sampling exTie 1).2.2 (by decide)⟩⟩

/-- The row-wise projection used by `corr_df` keeps a row exactly when its
four correlation columns are all non-null. -/
theorem corrMatch_eq (r : Row) :
    (match r.Severity, r.Visibility, r.Temperature, r.Wind_Speed with
      | some a, some b, some c, some d => some ((a, b, c, d) : ℚ × ℚ × ℚ × ℚ)
      | _, _, _, _ => none) =
      if fullyPopulated r then some (corrProj r) else none := by
  cases hs : r.Severity <;> cases hv : r.Visibility <;>
    cases ht : r.Temperature <;> cases hw : r.Wind_Speed <;>
    simp [fullyPopulated, corrProj, hs, hv, ht, hw]

/-- `corr_df` is the projection of exactly the fully populated rows. -/
theorem corr_df_eq (rows : List Row) :
    corr_df rows = (rows.filter fullyPopulated).map corrProj := by
  induction rows with
  | nil => rfl
  | cons r rs ih =>
    simp only [corr_df] at ih ⊢
    rw [List.filterMap_cons, corrMatch_eq]
    by_cases hb : fullyPopulated r
    · simp [hb, List.filter_cons, ih]
    · simp [hb, List.filter_cons, ih]

/-- C6: the correlation is computed only over the filtered rows whose four
columns (severity, visibility, temperature, wind speed) are all non-null,
and when zero such rows remain the result is the explicit
"insufficient data" outcome rather than a matrix. -/
theorem C6_correlation (rows : List Row) :
    corr_df rows = (rows.filter fullyPopulated).map corrProj ∧
    ((∀ r ∈ rows, fullyPopulated r = false) →
      corrResult rows = CorrOutput.insufficientData) ∧
    (corr_df rows ≠ [] →
      corrResult rows = CorrOutput.matrix (covMatrix (corr_df rows))) := by
  refine ⟨corr_df_eq rows, ?_, ?_⟩
  · intro h
    have he : rows.filter fullyPopulated = [] :=
      List.filter_eq_nil_iff.mpr (fun a ha => by
        rw [h a ha]
        exact Bool.false_ne_true)
    unfold corrResult
    rw [if_pos]
    rw [corr_df_eq, he]
    rfl
  · intro h
    unfold corrResult
    rw [if_neg (fun hlen => h (List.length_eq_zero.mp hlen))]

/-- C6 witness: a table with no fully populated row reports insufficient
data, and a fully populated table yields the matrix over its `corr_df`. -/
theorem C6_correlation_witness :
    corrResult exNoVis = CorrOutput.insufficientData ∧
    corrResult exMonBase = CorrOutput.matrix (covMatrix (corr_df exMonBase)) :=
  ⟨(C6_correlation exNoVis).2.1 (by decide),
   (C6_correlation exMonBase).2.2 (by decide)⟩

/-- Dropping the null-`Hour` rows does not change the non-null hour values. -/
theorem filterMap_hour (rows : List Row) :
    (rows.filter (fun r => r.Hour.isSome)).filterMap (fun r => r.Hour) =
      rows.filterMap (fun r => r.Hour) := by
  induction rows with
  | nil => rfl
  | cons r rs ih =>
    cases hh : r.Hour <;>
      simp [List.filter_cons, List.filterMap_cons, hh, ih]

/-- Dropping the null-`Hour` rows does not change any hour group count. -/
theorem countVal_hour (rows : List Row) (v : Nat) :
    countVal (fun r => r.Hour) (rows.filter (fun r => r.Hour.isSome)) v =
      countVal (fun r => r.Hour) rows v := by
  unfold countVal
  rw [List.filter_filter]
  congr 1
  apply List.filter_congr
  intro a _
  cases hh : a.Hour <;> simp [hh]

/-- The hour aggregation is unchanged when the null-hour rows are removed:
null-hour rows contribute neither keys nor counts. -/
theorem hourCounts_ignores_null_hours (rows : List Row) :
    hourCounts (rows.filter (fun r => r.Hour.isSome)) = hourCounts rows := by
  unfold hourCounts
  rw [filterMap_hour]
  exact List.map_congr_left (fun h0 _ => by rw [countVal_hour])

/-- C8: a raw record whose timestamp failed to parse is loaded (not dropped:
the table keeps one row per record), carries null timestamp and null derived
`Date`, `Hour`, `Month`, `Day` fields, is excluded from the filter result
for every criteria, and does not affect the time-based hour aggregation. -/
theorem C8_unparsable_timestamp_handling (raws : List RawRow) (x : RawRow)
    (hx : x ∈ raws) (hfail : x.Start_Time = none) :
    (load_data raws).length = raws.length ∧
    loadRow x ∈ load_data raws ∧
    (loadRow x).Start_Time = none ∧
    (loadRow x).Date = none ∧ (loadRow x).Hour = none ∧
    (loadRow x).Month = none ∧ (loadRow x).Day = none ∧
    (∀ (state : List String) (severity : List ℚ) (weather day : List String)
      (hour_range month_range : Nat × Nat) (start_date end_date : CalDate),
      loadRow x ∉ get_filtered_data (load_data raws) state severity weather day
        hour_range month_range start_date end_date) ∧
    hourCounts (load_data raws) =
      hourCounts ((load_data raws).filter (fun r => r.Hour.isSome)) := by
  refine ⟨by simp [load_data], List.mem_map_of_mem _ hx, ?_, ?_, ?_, ?_, ?_,
    ?_, (hourCounts_ignores_null_hours _).symm⟩
  · simp [loadRow, hfail]
  · simp [loadRow, hfail]
  · simp [loadRow, hfail]
  · simp [loadRow, hfail]
  · simp [loadRow, hfail]
  · intro state severity weather day hour_range month_range start_date end_date hmem
    have hge := (mem_get_filtered_data hmem).2.1
    rw [show (loadRow x).Date = none from by simp [loadRow, hfail]] at hge
    simp [optGeDate] at hge

/-- C8 witness: a concrete two-record input with one unparsable timestamp is
loaded without dropping rows, and the bad record has a null derived date. -/
theorem C8_unparsable_timestamp_handling_witness :
    (load_data exRaws).length = exRaws.length ∧ (loadRow rawBad).Date = none := by
  have h := C8_unparsable_timestamp_handling exRaws rawBad (by decide) rfl
  exact ⟨h.1, h.2.2.2.1⟩

/-- The first 15 entries of the descending-by-count arrangement are pairwise
descending. -/
theorem sorted_take_pairwise (l : List (String × Nat)) :
    ((l.insertionSort leCount).reverse.take 15).Pairwise
      (fun a b => b.2 ≤ a.2) := by
  have hs : List.Pairwise leCount (l.insertionSort leCount) :=
    List.sorted_insertionSort leCount l
  have hrev : ((l.insertionSort leCount).reverse).Pairwise
      (fun a b : String × Nat => b.2 ≤ a.2) :=
    List.pairwise_reverse.mpr hs
  exact List.Pairwise.sublist (List.take_sublist 15 _) hrev

/-- Every group left out of the first 15 entries of the descending
arrangement has a count at most that of every entry kept. -/
theorem sorted_take_top (l : List (String × Nat)) :
    ∀ p ∈ (l.insertionSort leCount).reverse.take 15,
      ∀ q ∈ l, q ∉ (l.insertionSort leCount).reverse.take 15 → q.2 ≤ p.2 := by
  intro p hp q hq hqn
  have hrev : ((l.insertionSort leCount).reverse).Pairwise
      (fun a b : String × Nat => b.2 ≤ a.2) :=
    List.pairwise_reverse.mpr (List.sorted_insertionSort leCount l)
  have hqs : q ∈ (l.insertionSort leCount).reverse := by
    rw [List.mem_reverse]
    exact ((List.perm_insertionSort leCount l).mem_iff).mpr hq
  rw [← List.take_append_drop 15 ((l.insertionSort leCount).reverse)] at hqs
  rcases List.mem_append.mp hqs with hin | hin
  · exact absurd hin hqn
  · have h2 := hrev
    rw [← List.take_append_drop 15 ((l.insertionSort leCount).reverse)] at h2
    exact (List.pairwise_append.mp h2).2.2 p hp q hin

/-- C9 counterexample: two states "AA" and "BB" with one accident each.  The
grouping's natural row order is "AA" before "BB" (category order), but the
output is `[("BB", 1), ("AA", 1)]`: pandas reverses the ascending
permutation for a descending sort, so ties come out in reversed — not
natural — row order. -/
theorem C9_counterexample :
    groupSize (stateCategories exTie) (fun r => r.State) exTie =
      [("AA", 1), ("BB", 1)] ∧
    state_counts exTie exTie = [("BB", 1), ("AA", 1)] ∧
    state_counts exTie exTie ≠ [("AA", 1), ("BB", 1)] := by
  decide

/-- C9 (amended): the state output has `min 15 #categories` entries, in
descending count order, and every grouped state left out has a count at most
that of every state kept (a top-15 by count).  The order of states with
equal counts is implementation-defined (in the modelled small-group regime it
is the reverse of the grouping's natural row order), not the natural row
order the original claim stated. -/
theorem C9_top_states (base rows : List Row) :
    (state_counts base rows).length =
      min 15 (stateCategories base).length ∧
    (state_counts base rows).Pairwise (fun a b => b.2 ≤ a.2) ∧
    (∀ p ∈ state_counts base rows,
      ∀ q ∈ groupSize (stateCategories base) (fun r => r.State) rows,
        q ∉ state_counts base rows → q.2 ≤ p.2) := by
  refine ⟨?_, ?_, ?_⟩
  · unfold state_counts
    rw [List.length_take, List.length_reverse, List.length_insertionSort]
    unfold groupSize
    rw [List.length_map]
  · exact sorted_take_pairwise _
  · exact sorted_take_top _

/-- C9 witness: sixteen states with one accident each; "S16" is kept,
"S01" is grouped but dropped from the top 15, and its count does not exceed
the kept one's. -/
theorem C9_top_states_witness :
    (("S16", 1) ∈ state_counts exSixteen exSixteen ∧
      ("S01", 1) ∈ groupSize (stateCategories exSixteen) (fun r => r.State)
        exSixteen ∧
      ("S01", 1) ∉ state_counts exSixteen exSixteen) ∧
    (("S01", (1 : Nat)).2 ≤ (("S16", (1 : Nat)) : String × Nat).2) :=
  ⟨⟨by decide, by decide, by decide⟩,
   (C9_top_states exSixteen exSixteen).2.2 ("S16", 1) (by decide) ("S01", 1)
     (by decide) (by decide)⟩

end RoadAccidents
